import Mathlib

/-
Verification of the time-integration core of the spectral non-divergent
barotropic vorticity-equation model (`barotropic/model.py`).

Shallow embedding conventions:
* Grid fields (2-D real arrays over latitude × longitude) are functions
  `ℕ → ℕ → ℚ`; spectral coefficient vectors (1-D complex arrays) are
  functions `ℕ → ℚ × ℚ`, a pair holding real and imaginary parts.
  Floating-point numbers are modelled by exact rationals.
* The spectral transform engine (`pyspharm_transforms.TransformsEngine`)
  is an external collaborator: it is embedded as a structure of abstract
  functions with the interface the model consumes.
* The numerical sine routine (`np.sin` composed with `np.deg2rad`) used
  for the Coriolis field is likewise external; it is passed to the
  constructor as an abstract function `ℚ → ℚ`.
-/

namespace Barotropic

/-- A 2-D grid field over (latitude index, longitude index). -/
abbrev Grid : Type := ℕ → ℕ → ℚ

/-- A spectral coefficient vector: complex values (re, im) per spectral index. -/
abbrev Spec : Type := ℕ → ℚ × ℚ

/-- Scaling of a complex value (re, im pair) by a real scalar, the only
multiplicative operation the integrator applies to spectral entries. -/
def qsmul (a : ℚ) (z : ℚ × ℚ) : ℚ × ℚ := (a * z.1, a * z.2)

/-- The all-zero spectral vector (`np.zeros_like(self.vrt_spec)`). -/
def zeroSpec : Spec := fun _ => (0, 0)

/-- The spectral transform engine interface consumed by the model
(external collaborator, see spec section 6). -/
structure TransformsEngine where
  grid_to_spec : Grid → Spec
  spec_to_grid : Spec → Grid
  uv_grid_from_vrtdiv_spec : Spec → Spec → Grid × Grid
  vrtdiv_spec_from_uv_grid : Grid → Grid → Spec × Spec
  wavenumbers : (ℕ → ℕ) × (ℕ → ℕ)
  grid_latlon : (ℕ → ℚ) × (ℕ → ℚ)
  radius : ℚ

/-- The barotropic model object: configuration, derived constants and
mutable state, mirroring the attributes of `BarotropicModel`. -/
structure BarotropicModel where
  nlat : ℕ
  nlon : ℕ
  robert_coefficient : ℚ
  engine : TransformsEngine
  damping : ℕ → ℚ
  u_grid : Grid
  v_grid : Grid
  vrt_grid : Grid
  vrt_spec : Spec
  vrt_spec_prev : Spec
  f : Grid
  start_time : ℚ
  t : ℚ
  dt : ℚ
  first_step : Bool

/-- `BarotropicModel.set_state`: set the model state from a grid vorticity.
Transforms to spectral space at the model truncation, recomputes the grid
vorticity from the spectral field, derives the winds assuming zero
divergence, and copies the current spectral level into the previous one. -/
def set_state (s : BarotropicModel) (vrt : Grid) : BarotropicModel :=
  let vs := s.engine.grid_to_spec vrt
  let vg := s.engine.spec_to_grid vs
  let uv := s.engine.uv_grid_from_vrtdiv_spec vs zeroSpec
  { s with vrt_spec := vs, vrt_grid := vg,
           u_grid := uv.1, v_grid := uv.2, vrt_spec_prev := vs }

/-- The Laplacian-eigenvalue array computed in `BarotropicModel.__init__`:
`el = (m + n) * (m + n + 1) / float(self.engine.radius) ** 2` with
`m, n = self.engine.wavenumbers()`. -/
def laplacian_eigenvalue (e : TransformsEngine) (k : ℕ) : ℚ :=
  (((e.wavenumbers.1 k + e.wavenumbers.2 k) *
    (e.wavenumbers.1 k + e.wavenumbers.2 k + 1) : ℕ) : ℚ) / e.radius ^ 2

/-- `BarotropicModel.__init__`: build a model from an initial grid vorticity.
The transform engine and the numerical sine routine `sinDeg` (modelling
`np.sin(np.deg2rad(·))`) are external collaborators passed in; `nlat`,
`nlon` are the shape of the caller's field.  The Python defaults are
`robert_coefficient = 0.04`, `damping_coefficient = 1e-4`,
`damping_order = 4`. -/
def barotropicModel_init (engine : TransformsEngine) (sinDeg : ℚ → ℚ)
    (vrt : Grid) (nlat nlon : ℕ) (truncation : ℕ) (dt : ℚ) (start_time : ℚ)
    (robert_coefficient : ℚ) (damping_coefficient : ℚ) (damping_order : ℕ) :
    BarotropicModel :=
  let el : ℕ → ℚ := laplacian_eigenvalue engine
  let damping : ℕ → ℚ := fun k =>
    damping_coefficient * (el k / el truncation) ^ damping_order
  let lats := engine.grid_latlon.1
  let fcor : Grid := fun i _ => 2 * (729 / 10 ^ 7) * sinDeg (lats i)
  let base : BarotropicModel :=
    { nlat := nlat, nlon := nlon, robert_coefficient := robert_coefficient,
      engine := engine, damping := damping,
      u_grid := fun _ _ => 0, v_grid := fun _ _ => 0,
      vrt_grid := fun _ _ => 0,
      vrt_spec := zeroSpec, vrt_spec_prev := zeroSpec,
      f := fcor, start_time := start_time,
      t := 0, dt := dt, first_step := true }
  set_state base vrt

/-- The raw spectral forcing tendency of `step_forward` (lines computing
`dudt`, `dvdt` and `dzetadt` before damping): the vorticity part of the
engine's spectral tendency of the grid wind tendencies
`dudt = (f + ζ)·v`, `dvdt = -(f + ζ)·u`. -/
def raw_tendency (s : BarotropicModel) : Spec :=
  let dudt : Grid := fun i j => (s.f i j + s.vrt_grid i j) * s.v_grid i j
  let dvdt : Grid := fun i j => -((s.f i j + s.vrt_grid i j) * s.u_grid i j)
  (s.engine.vrtdiv_spec_from_uv_grid dudt dvdt).1

/-- The damped tendency of `step_forward`:
`coeffs = 1 / (1 + damping * dt)`;
`dzetadt = coeffs * (dzetadt - damping * vrt_spec_prev)`.
Note `self.dt` here, not the effective step size. -/
def damped_tendency (s : BarotropicModel) : Spec :=
  fun k => qsmul (1 / (1 + s.damping k * s.dt))
    (raw_tendency s k - qsmul (s.damping k) (s.vrt_spec_prev k))

/-- `BarotropicModel.step_forward`: one time step.  On the first step a
forward difference with step `dt` is used and the Robert filter is applied
retroactively; afterwards a leapfrog with effective step `2·dt` and the
Robert filter split into two partial additions.  The epilogue stores the
filtered current level into the previous slot, the new level into the
current slot, re-derives grid fields, and advances the clock by one `dt`. -/
def step_forward (s : BarotropicModel) : BarotropicModel :=
  let dt := if s.first_step then s.dt else 2 * s.dt
  let dzetadt := damped_tendency s
  if s.first_step then
    let new_vrt_spec : Spec := fun k => s.vrt_spec k + qsmul dt (dzetadt k)
    let filtered : Spec := fun k =>
      s.vrt_spec k + qsmul s.robert_coefficient (new_vrt_spec k - s.vrt_spec k)
    { s with vrt_spec_prev := filtered, vrt_spec := new_vrt_spec,
             vrt_grid := s.engine.spec_to_grid new_vrt_spec,
             u_grid := (s.engine.uv_grid_from_vrtdiv_spec new_vrt_spec zeroSpec).1,
             v_grid := (s.engine.uv_grid_from_vrtdiv_spec new_vrt_spec zeroSpec).2,
             t := s.t + s.dt, first_step := false }
  else
    let filtered1 : Spec := fun k =>
      s.vrt_spec k +
        qsmul s.robert_coefficient (s.vrt_spec_prev k - qsmul 2 (s.vrt_spec k))
    let new_vrt_spec : Spec := fun k => s.vrt_spec_prev k + qsmul dt (dzetadt k)
    let filtered2 : Spec := fun k =>
      filtered1 k + qsmul s.robert_coefficient (new_vrt_spec k)
    { s with vrt_spec_prev := filtered2, vrt_spec := new_vrt_spec,
             vrt_grid := s.engine.spec_to_grid new_vrt_spec,
             u_grid := (s.engine.uv_grid_from_vrtdiv_spec new_vrt_spec zeroSpec).1,
             v_grid := (s.engine.uv_grid_from_vrtdiv_spec new_vrt_spec zeroSpec).2,
             t := s.t + s.dt }

/-- The loop body of `run_with_snapshots`, iterated once per remaining
iteration of `while n <= target_steps` (the loop counter `n` increases by
exactly one per iteration, so the iteration count is fixed in advance and
is passed as the first `ℕ` argument).  Each iteration steps the model,
increments `n`, and yields `self.t` when `self.t > snapshot_start` and
`n % step_interval == 0`.  Returns the final model, the list of yielded
times in order, and the number of `step_forward` calls performed. -/
def run_aux (step_interval : ℤ) (snapshot_start : ℚ) :
    ℕ → ℕ → BarotropicModel → BarotropicModel × List ℚ × ℕ
  | 0, _, s => (s, [], 0)
  | fuel + 1, n, s =>
      let s' := step_forward s
      let n' := n + 1
      let rest := run_aux step_interval snapshot_start fuel n' s'
      (rest.1,
       (if snapshot_start < s'.t ∧ ((n' : ℤ) % step_interval = 0)
        then [s'.t] else []) ++ rest.2.1,
       rest.2.2 + 1)

/-- `BarotropicModel.run_with_snapshots`: run for `run_time` seconds,
yielding elapsed times.  `snapshot_interval = None` (or the falsy `0`)
defaults to `dt`, and is floored at `dt`;
`target_steps = ceil((t + run_time) / dt)`;
`step_interval = ceil(snapshot_interval / dt)`; the loop runs
`while n <= target_steps` from `n = 0`, hence `(target_steps + 1).toNat`
iterations.  The generator's complete behaviour is returned as
(final model, yielded times, number of `step_forward` calls). -/
def run_with_snapshots (s : BarotropicModel) (run_time : ℚ)
    (snapshot_start : ℚ) (snapshot_interval : Option ℚ) :
    BarotropicModel × List ℚ × ℕ :=
  let si0 : ℚ := match snapshot_interval with
    | none => s.dt
    | some x => if x = 0 then s.dt else x
  let si1 : ℚ := if si0 < s.dt then s.dt else si0
  let target_steps : ℤ := ⌈(s.t + run_time) / s.dt⌉
  let step_interval : ℤ := ⌈si1 / s.dt⌉
  run_aux step_interval snapshot_start (target_steps + 1).toNat 0 s

/-- `BarotropicModel.valid_time`: start time plus elapsed seconds. -/
def valid_time (s : BarotropicModel) : ℚ := s.start_time + s.t

/-- Modelled from the spec: the transform engine's `wavenumbers()` method
lives in `pyspharm_transforms.py`, which is not part of the sources under
verification.  Per the spec it returns "per-spectral-index zonal and total
wavenumber, same ordering as all spectral vectors", the spectral basis
being the triangular truncation of size `(T+1)(T+2)/2`; the ordering is
the zonal-wavenumber-major enumeration `(m, n)` for `m = 0..T`,
`n = m..T` used by the pyspharm backend. -/
def triangularIndices (T : ℕ) : List (ℕ × ℕ) :=
  (List.range (T + 1)).flatMap fun m =>
    (List.range (T + 1 - m)).map fun j => (m, m + j)

/-- Zonal wavenumber `m` of spectral index `k` in the spec-modelled
triangular enumeration. -/
def specZonal (T : ℕ) (k : ℕ) : ℕ := ((triangularIndices T).getD k (0, 0)).1

/-- Total wavenumber `n` of spectral index `k` in the spec-modelled
triangular enumeration. -/
def specTotal (T : ℕ) (k : ℕ) : ℕ := ((triangularIndices T).getD k (0, 0)).2

/-- A trivial concrete transform engine (all transforms return zero
fields), used to instantiate theorems whose truth does not depend on the
engine. -/
def trivEngine : TransformsEngine where
  grid_to_spec := fun _ => zeroSpec
  spec_to_grid := fun _ => fun _ _ => 0
  uv_grid_from_vrtdiv_spec := fun _ _ => (fun _ _ => 0, fun _ _ => 0)
  vrtdiv_spec_from_uv_grid := fun _ _ => (zeroSpec, zeroSpec)
  wavenumbers := (fun _ => 0, fun _ => 0)
  grid_latlon := (fun _ => 0, fun _ => 0)
  radius := 1

/-- A concrete engine whose wavenumbers are the spec-modelled triangular
enumeration at truncation `T`, with planetary radius `R`. -/
def triEngine (T : ℕ) (R : ℚ) : TransformsEngine :=
  { trivEngine with wavenumbers := (specZonal T, specTotal T), radius := R }

/-- The grid/spectral consistency invariant: the stored grid vorticity is
the inverse transform of the current spectral vorticity, and the stored
winds are diagnostically derived from it with zero divergence. -/
def Consistent (s : BarotropicModel) : Prop :=
  s.vrt_grid = s.engine.spec_to_grid s.vrt_spec ∧
  (s.u_grid, s.v_grid) = s.engine.uv_grid_from_vrtdiv_spec s.vrt_spec zeroSpec

/-- The single combined standard Robert-Asselin update of the current
level, as worded in the spec:
`current + robert_coefficient * (previous - 2*current + new)`. -/
def robertAsselinCombined (r : ℚ) (cur prev new : ℚ × ℚ) : ℚ × ℚ :=
  cur + qsmul r (prev - qsmul 2 cur + new)

theorem step_forward_t (s : BarotropicModel) :
    (step_forward s).t = s.t + s.dt := by
  by_cases h : s.first_step = true <;> simp [step_forward, h]

theorem step_forward_dt (s : BarotropicModel) :
    (step_forward s).dt = s.dt := by
  by_cases h : s.first_step = true <;> simp [step_forward, h]

theorem step_forward_first_step (s : BarotropicModel) :
    (step_forward s).first_step = false := by
  by_cases h : s.first_step = true <;> simp [step_forward, h]

theorem iterate_step_dt (s : BarotropicModel) (n : ℕ) :
    (step_forward^[n] s).dt = s.dt := by
  induction n with
  | zero => rfl
  | succ n ih => rw [Function.iterate_succ_apply', step_forward_dt, ih]

theorem iterate_step_t (s : BarotropicModel) (n : ℕ) :
    (step_forward^[n] s).t = s.t + n * s.dt := by
  induction n with
  | zero => simp
  | succ n ih =>
      rw [Function.iterate_succ_apply', step_forward_t, ih, iterate_step_dt]
      push_cast
      ring

theorem iterate_step_first_step (s : BarotropicModel) (n : ℕ) (h : 1 ≤ n) :
    (step_forward^[n] s).first_step = false := by
  obtain ⟨m, rfl⟩ := Nat.exists_eq_add_of_le h
  rw [Nat.add_comm, Function.iterate_succ_apply', step_forward_first_step]

/-- A concrete model state in steady state (first-step flag already
cleared), used to instantiate theorems about the leapfrog branch. -/
def steadyModel : BarotropicModel :=
  { nlat := 4, nlon := 8, robert_coefficient := 1/25,
    engine := trivEngine, damping := fun _ => 1/10000,
    u_grid := fun _ _ => 0, v_grid := fun _ _ => 0, vrt_grid := fun _ _ => 0,
    vrt_spec := fun _ => (1, 2), vrt_spec_prev := fun _ => (3, 4),
    f := fun _ _ => 0, start_time := 0, t := 10, dt := 10,
    first_step := false }

/-- A concrete freshly constructed model (`dt = 10`, trivial engine),
used to instantiate theorems about the state right after construction. -/
def initTriv : BarotropicModel :=
  barotropicModel_init trivEngine (fun x => x) (fun _ _ => 0)
    4 8 3 10 0 (1/25) (1/10000) 4

/-- C1: on every steady-state (non-first) step, the two partial Robert
filter additions performed by the code leave in the previous-level slot a
filtered current level exactly equal to the single combined standard
Robert-Asselin formula
`current + robert_coefficient * (previous - 2*current + new)` with
`new = previous + 2*dt*tendency'` (which is also the value placed in the
current-level slot). -/
theorem robert_asselin_combined_equivalence (s : BarotropicModel)
    (h : s.first_step = false) :
    (step_forward s).vrt_spec =
      (fun k => s.vrt_spec_prev k +
        qsmul (2 * s.dt) (damped_tendency s k)) ∧
    (step_forward s).vrt_spec_prev = fun k =>
      robertAsselinCombined s.robert_coefficient (s.vrt_spec k)
        (s.vrt_spec_prev k)
        (s.vrt_spec_prev k + qsmul (2 * s.dt) (damped_tendency s k)) := by
  constructor
  · funext k
    simp [step_forward, h]
  · funext k
    simp only [step_forward, h, Bool.false_eq_true, if_false]
    refine Prod.ext ?_ ?_ <;>
      simp [robertAsselinCombined, qsmul, Prod.ext_iff] <;> ring

theorem robert_asselin_combined_equivalence_witness :
    steadyModel.first_step = false ∧
    ((step_forward steadyModel).vrt_spec =
      (fun k => steadyModel.vrt_spec_prev k +
        qsmul (2 * steadyModel.dt) (damped_tendency steadyModel k)) ∧
     (step_forward steadyModel).vrt_spec_prev = fun k =>
      robertAsselinCombined steadyModel.robert_coefficient
        (steadyModel.vrt_spec k) (steadyModel.vrt_spec_prev k)
        (steadyModel.vrt_spec_prev k +
          qsmul (2 * steadyModel.dt) (damped_tendency steadyModel k))) :=
  ⟨rfl, robert_asselin_combined_equivalence steadyModel rfl⟩

/-- C2: the very first step uses effective step size one `dt` with the
forward-difference formula `new = current + dt*tendency'`, applies the
Robert filter retroactively to the current level
(`current + robert_coefficient*(new - current)`, stored into the
previous-level slot by the epilogue), clears the first-step flag, and
every call leaves the flag cleared so all subsequent calls take the
leapfrog branch. -/
theorem first_step_forward_difference (s : BarotropicModel)
    (h : s.first_step = true) :
    (step_forward s).vrt_spec =
      (fun k => s.vrt_spec k + qsmul s.dt (damped_tendency s k)) ∧
    (step_forward s).vrt_spec_prev = (fun k =>
      s.vrt_spec k + qsmul s.robert_coefficient
        ((s.vrt_spec k + qsmul s.dt (damped_tendency s k)) -
          s.vrt_spec k)) ∧
    (step_forward s).first_step = false ∧
    ∀ s2 : BarotropicModel, (step_forward s2).first_step = false := by
  refine ⟨?_, ?_, ?_, step_forward_first_step⟩
  · funext k
    simp [step_forward, h]
  · funext k
    simp [step_forward, h]
  · simp [step_forward, h]

theorem first_step_forward_difference_witness :
    initTriv.first_step = true ∧
    ((step_forward initTriv).vrt_spec =
      (fun k => initTriv.vrt_spec k +
        qsmul initTriv.dt (damped_tendency initTriv k)) ∧
     (step_forward initTriv).vrt_spec_prev = (fun k =>
      initTriv.vrt_spec k + qsmul initTriv.robert_coefficient
        ((initTriv.vrt_spec k +
          qsmul initTriv.dt (damped_tendency initTriv k)) -
          initTriv.vrt_spec k)) ∧
     (step_forward initTriv).first_step = false ∧
     ∀ s2 : BarotropicModel, (step_forward s2).first_step = false) :=
  ⟨rfl, first_step_forward_difference initTriv rfl⟩

/-- C3: on every call, the tendency actually used by the integrator is
`(1/(1 + damping*dt)) * (raw_tendency - damping * vrt_spec_prev)`
per spectral index, with the configured `dt` in the damping factor on the
first and on all subsequent steps alike; the integrator adds it scaled by
the effective step size (`dt` on the first step, `2*dt` afterwards). -/
theorem damped_tendency_used (s : BarotropicModel) :
    (step_forward s).vrt_spec = fun k =>
      (if s.first_step then s.vrt_spec k else s.vrt_spec_prev k) +
        qsmul (if s.first_step then s.dt else 2 * s.dt)
          (qsmul (1 / (1 + s.damping k * s.dt))
            (raw_tendency s k -
              qsmul (s.damping k) (s.vrt_spec_prev k))) := by
  by_cases h : s.first_step = true <;>
    · funext k
      simp [step_forward, damped_tendency, h]

theorem run_aux_count (si : ℤ) (ss : ℚ) (fuel : ℕ) :
    ∀ (n : ℕ) (s : BarotropicModel), (run_aux si ss fuel n s).2.2 = fuel := by
  induction fuel with
  | zero => intro n s; rfl
  | succ fuel ih => intro n s; simp [run_aux, ih]

/-- The elapsed-time values yielded by the snapshot loop depend only on
the clock, the step length, the loop counter and the interval arithmetic;
this pure recurrence mirrors the loop's yield decisions. -/
def timeYields (step_interval : ℤ) (snapshot_start : ℚ) (dtv : ℚ) :
    ℕ → ℕ → ℚ → List ℚ
  | 0, _, _ => []
  | fuel + 1, n, t =>
      (if snapshot_start < t + dtv ∧
          (((n + 1 : ℕ) : ℤ) % step_interval = 0)
       then [t + dtv] else []) ++
      timeYields step_interval snapshot_start dtv fuel (n + 1) (t + dtv)

theorem run_aux_yields (si : ℤ) (ss : ℚ) (fuel : ℕ) :
    ∀ (n : ℕ) (s : BarotropicModel),
      (run_aux si ss fuel n s).2.1 = timeYields si ss s.dt fuel n s.t := by
  induction fuel with
  | zero => intro n s; rfl
  | succ fuel ih =>
      intro n s
      simp only [run_aux, timeYields]
      rw [ih (n + 1) (step_forward s), step_forward_dt, step_forward_t]

/-- C7: after `n` calls to `step_forward` following construction the
elapsed time is exactly `n * dt`; each call advances the clock by one
`dt` whether the forward-difference or the leapfrog formula was used. -/
theorem clock_advancement (engine : TransformsEngine) (sinDeg : ℚ → ℚ)
    (vrt : Grid) (nlat nlon truncation : ℕ) (dtv st r c : ℚ) (ord : ℕ)
    (n : ℕ) :
    (step_forward^[n] (barotropicModel_init engine sinDeg vrt nlat nlon
      truncation dtv st r c ord)).t = n * dtv := by
  rw [iterate_step_t]
  show (0 : ℚ) + n * dtv = n * dtv
  ring

/-- C8: the consistency invariant — grid vorticity equals the inverse
transform of the current spectral vorticity, and winds are derived from
it with zero divergence — holds after construction, after `set_state`,
and after every `step_forward`. -/
theorem grid_spectral_consistency :
    (∀ (engine : TransformsEngine) (sinDeg : ℚ → ℚ) (vrt : Grid)
       (nlat nlon truncation : ℕ) (dtv st r c : ℚ) (ord : ℕ),
      Consistent (barotropicModel_init engine sinDeg vrt nlat nlon
        truncation dtv st r c ord)) ∧
    (∀ (s : BarotropicModel) (vrt : Grid), Consistent (set_state s vrt)) ∧
    (∀ s : BarotropicModel, Consistent (step_forward s)) := by
  refine ⟨fun _ _ _ _ _ _ _ _ _ _ _ => ⟨rfl, rfl⟩,
          fun _ _ => ⟨rfl, rfl⟩, fun s => ?_⟩
  by_cases h : s.first_step = true <;>
    · constructor <;> simp [step_forward, h, Consistent]

/-- C9: immediately after construction with initial field `f0` or after
`set_state f0`, the stored grid vorticity is the truncated round trip
`spec_to_grid (grid_to_spec f0)` of the caller's input, and the
previous-level spectral vorticity equals the current one. -/
theorem initial_round_trip :
    (∀ (s : BarotropicModel) (f0 : Grid),
      (set_state s f0).vrt_grid =
        s.engine.spec_to_grid (s.engine.grid_to_spec f0) ∧
      (set_state s f0).vrt_spec_prev = (set_state s f0).vrt_spec) ∧
    (∀ (engine : TransformsEngine) (sinDeg : ℚ → ℚ) (f0 : Grid)
       (nlat nlon truncation : ℕ) (dtv st r c : ℚ) (ord : ℕ),
      (barotropicModel_init engine sinDeg f0 nlat nlon truncation
        dtv st r c ord).vrt_grid =
        engine.spec_to_grid (engine.grid_to_spec f0) ∧
      (barotropicModel_init engine sinDeg f0 nlat nlon truncation
        dtv st r c ord).vrt_spec_prev =
        (barotropicModel_init engine sinDeg f0 nlat nlon truncation
          dtv st r c ord).vrt_spec) :=
  ⟨fun _ _ => ⟨rfl, rfl⟩, fun _ _ _ _ _ _ _ _ _ _ _ => ⟨rfl, rfl⟩⟩

/-- C10: `set_state` mutates only the five field buffers: the clock, the
first-step flag and all configuration constants are untouched.  In
particular, after `k` completed steps, `set_state` leaves the elapsed
time at `k * dt` and, for `k ≥ 1`, the next step still takes the
leapfrog branch (flag remains cleared). -/
theorem set_state_frame :
    (∀ (s : BarotropicModel) (f0 : Grid),
      (set_state s f0).t = s.t ∧
      (set_state s f0).first_step = s.first_step ∧
      (set_state s f0).damping = s.damping ∧
      (set_state s f0).f = s.f ∧
      (set_state s f0).robert_coefficient = s.robert_coefficient ∧
      (set_state s f0).dt = s.dt ∧
      (set_state s f0).start_time = s.start_time ∧
      (set_state s f0).nlat = s.nlat ∧
      (set_state s f0).nlon = s.nlon ∧
      (set_state s f0).engine = s.engine) ∧
    (∀ (engine : TransformsEngine) (sinDeg : ℚ → ℚ) (vrt f0 : Grid)
       (nlat nlon truncation : ℕ) (dtv st r c : ℚ) (ord : ℕ) (k : ℕ),
      (set_state (step_forward^[k] (barotropicModel_init engine sinDeg vrt
        nlat nlon truncation dtv st r c ord)) f0).t = k * dtv ∧
      (1 ≤ k →
        (set_state (step_forward^[k] (barotropicModel_init engine sinDeg
          vrt nlat nlon truncation dtv st r c ord)) f0).first_step =
          false)) := by
  constructor
  · exact fun s f0 =>
      ⟨rfl, rfl, rfl, rfl, rfl, rfl, rfl, rfl, rfl, rfl⟩
  · intro engine sinDeg vrt f0 nlat nlon truncation dtv st r c ord k
    constructor
    · show (step_forward^[k] (barotropicModel_init engine sinDeg vrt
        nlat nlon truncation dtv st r c ord)).t = k * dtv
      rw [iterate_step_t]
      show (0 : ℚ) + k * dtv = k * dtv
      ring
    · intro hk
      show (step_forward^[k] (barotropicModel_init engine sinDeg vrt
        nlat nlon truncation dtv st r c ord)).first_step = false
      exact iterate_step_first_step _ k hk

theorem set_state_frame_witness :
    (set_state (step_forward^[1] initTriv) (fun _ _ => 1)).t =
      ((1 : ℕ) : ℚ) * 10 ∧
    (set_state (step_forward^[1] initTriv) (fun _ _ => 1)).first_step =
      false :=
  ⟨(set_state_frame.2 trivEngine (fun x => x) (fun _ _ => 0) (fun _ _ => 1)
      4 8 3 10 0 (1/25) (1/10000) 4 1).1,
   (set_state_frame.2 trivEngine (fun x => x) (fun _ _ => 0) (fun _ _ => 1)
      4 8 3 10 0 (1/25) (1/10000) 4 1).2 (by decide)⟩

/-- C5 counterexample: with `dt = 10` and elapsed time `0`, fully
consuming `run_with_snapshots(run_time = 100)` performs 11 calls to
`step_forward`, while `ceil((elapsed + run_time)/dt) = 10`; the claimed
bound of at most `ceil((elapsed + run_time)/dt)` calls is violated. -/
theorem run_step_count_counterexample :
    (run_with_snapshots initTriv 100 0 none).2.2 = 11 ∧
    Int.toNat ⌈(initTriv.t + 100) / initTriv.dt⌉ = 10 ∧
    ¬ ((run_with_snapshots initTriv 100 0 none).2.2 ≤
        Int.toNat ⌈(initTriv.t + 100) / initTriv.dt⌉) := by
  have ht : initTriv.t = 0 := rfl
  have hdt : initTriv.dt = 10 := rfl
  have h1 : (run_with_snapshots initTriv 100 0 none).2.2 =
      (⌈(initTriv.t + 100) / initTriv.dt⌉ + 1).toNat := by
    simp [run_with_snapshots, run_aux_count]
  have h2 : (⌈(initTriv.t + 100) / initTriv.dt⌉ : ℤ) = 10 := by
    rw [ht, hdt]
    norm_num
  refine ⟨?_, ?_, ?_⟩
  · rw [h1, h2]
    decide
  · rw [h2]
    decide
  · rw [h1, h2]
    decide

/-- C5 (amended): fully consuming the generator returned by
`run_with_snapshots` is finite and performs exactly
`(ceil((elapsed + run_time)/dt) + 1).toNat` calls to `step_forward` —
one more than the claimed `ceil((elapsed + run_time)/dt)` whenever that
ceiling is non-negative, because the loop condition is
`n <= target_steps` with `n` starting at 0. -/
theorem run_with_snapshots_step_count (s : BarotropicModel)
    (run_time snapshot_start : ℚ) (snapshot_interval : Option ℚ) :
    (run_with_snapshots s run_time snapshot_start snapshot_interval).2.2 =
      (⌈(s.t + run_time) / s.dt⌉ + 1).toNat := by
  simp [run_with_snapshots, run_aux_count]

/-- C6: with `dt = 10` and the model at elapsed time 0 — for any engine
and any field values — `run_with_snapshots(run_time = 100,
snapshot_interval = 20)` yields exactly the five elapsed times 20, 40,
60, 80, 100; each yielded value strictly exceeds `snapshot_start = 0`
and equals (a multiple of `ceil(snapshot_interval/dt) = 2` completed
steps) times `dt`. -/
theorem snapshot_times (s : BarotropicModel) (ht : s.t = 0)
    (hdt : s.dt = 10) :
    (run_with_snapshots s 100 0 (some 20)).2.1 = [20, 40, 60, 80, 100] ∧
    ∀ x ∈ (run_with_snapshots s 100 0 (some 20)).2.1,
      0 < x ∧ ∃ j : ℕ, x = ((j * 2 : ℕ) : ℚ) * 10 := by
  have h : (run_with_snapshots s 100 0 (some 20)).2.1 =
      [20, 40, 60, 80, 100] := by
    simp only [run_with_snapshots]
    rw [run_aux_yields, ht, hdt]
    norm_num [timeYields]
  refine ⟨h, ?_⟩
  rw [h]
  intro x hx
  fin_cases hx
  · exact ⟨by norm_num, 1, by norm_num⟩
  · exact ⟨by norm_num, 2, by norm_num⟩
  · exact ⟨by norm_num, 3, by norm_num⟩
  · exact ⟨by norm_num, 4, by norm_num⟩
  · exact ⟨by norm_num, 5, by norm_num⟩

/-- A concrete model over the spec-modelled triangular wavenumbers at
truncation 3, radius 1, damping coefficient 1/10000, damping order 4. -/
def M4 : BarotropicModel :=
  barotropicModel_init (triEngine 3 1) (fun x => x) (fun _ _ => 0)
    4 8 3 10 0 (1/25) (1/10000) 4

/-- C4 counterexample: with the spec-modelled wavenumbers (zonal and
total wavenumber per spectral index) at truncation 3 and radius 1,
spectral index 7 is `(m, n) = (2, 2)` (total wavenumber 2) and index 3 is
`(0, 3)` (total wavenumber 3), yet the damping coefficient at index 3 is
strictly smaller than at index 7 — the claimed monotonicity in total
wavenumber fails, because the code's eigenvalue `(m+n)(m+n+1)/R²` is not
a function of the total wavenumber `n`.  Moreover index 6 is `(1, 3)`,
at the truncation total wavenumber 3, but its coefficient differs from
the configured damping coefficient `1/10000`. -/
theorem damping_monotonicity_counterexample :
    specTotal 3 7 = 2 ∧ specTotal 3 3 = 3 ∧
    M4.damping 3 < M4.damping 7 ∧
    specTotal 3 6 = 3 ∧ M4.damping 6 ≠ 1/10000 := by
  have hz3 : specZonal 3 3 = 0 := by decide
  have ht3 : specTotal 3 3 = 3 := by decide
  have hz7 : specZonal 3 7 = 2 := by decide
  have ht7 : specTotal 3 7 = 2 := by decide
  have hz6 : specZonal 3 6 = 1 := by decide
  have ht6 : specTotal 3 6 = 3 := by decide
  have e3 : laplacian_eigenvalue (triEngine 3 1) 3 = 12 := by
    norm_num [laplacian_eigenvalue, triEngine, trivEngine, hz3, ht3]
  have e7 : laplacian_eigenvalue (triEngine 3 1) 7 = 20 := by
    norm_num [laplacian_eigenvalue, triEngine, trivEngine, hz7, ht7]
  have e6 : laplacian_eigenvalue (triEngine 3 1) 6 = 20 := by
    norm_num [laplacian_eigenvalue, triEngine, trivEngine, hz6, ht6]
  refine ⟨ht7, ht3, ?_, ht6, ?_⟩
  · show (1/10000 : ℚ) * (laplacian_eigenvalue (triEngine 3 1) 3 /
        laplacian_eigenvalue (triEngine 3 1) 3) ^ 4 <
      (1/10000 : ℚ) * (laplacian_eigenvalue (triEngine 3 1) 7 /
        laplacian_eigenvalue (triEngine 3 1) 3) ^ 4
    rw [e3, e7]
    norm_num
  · show (1/10000 : ℚ) * (laplacian_eigenvalue (triEngine 3 1) 6 /
        laplacian_eigenvalue (triEngine 3 1) 3) ^ 4 ≠ 1/10000
    rw [e6, e3]
    norm_num

/-- C4 (amended): the damping vector computed at construction is, per
spectral index `k`, the configured coefficient `c` times the normalized
eigenvalue `el k / el truncation` (with `el k = (m+n)(m+n+1)/R²`) raised
to the damping order.  Provided `c ≥ 0` and the normalizing eigenvalue is
positive, the vector is monotone non-decreasing in `m + n` (the argument
of the eigenvalue — not in the total wavenumber `n` alone), and equals
exactly `c` at every index whose `m + n` agrees with that of the
normalization index `truncation` (in the spec-modelled enumeration that
index is `(m, n) = (0, truncation)`, so `m + n = truncation` there). -/
theorem damping_monotonicity (engine : TransformsEngine) (sinDeg : ℚ → ℚ)
    (vrt : Grid) (nlat nlon truncation : ℕ) (dtv st r c : ℚ) (ord : ℕ)
    (hc : 0 ≤ c)
    (hel : 0 < laplacian_eigenvalue engine truncation) :
    (∀ k, (barotropicModel_init engine sinDeg vrt nlat nlon truncation dtv
        st r c ord).damping k =
      c * (laplacian_eigenvalue engine k /
           laplacian_eigenvalue engine truncation) ^ ord) ∧
    (∀ k1 k2,
      engine.wavenumbers.1 k1 + engine.wavenumbers.2 k1 ≤
        engine.wavenumbers.1 k2 + engine.wavenumbers.2 k2 →
      (barotropicModel_init engine sinDeg vrt nlat nlon truncation dtv
        st r c ord).damping k1 ≤
      (barotropicModel_init engine sinDeg vrt nlat nlon truncation dtv
        st r c ord).damping k2) ∧
    (∀ k,
      engine.wavenumbers.1 k + engine.wavenumbers.2 k =
        engine.wavenumbers.1 truncation + engine.wavenumbers.2 truncation →
      (barotropicModel_init engine sinDeg vrt nlat nlon truncation dtv
        st r c ord).damping k = c) := by
  have el_nonneg : ∀ k, (0 : ℚ) ≤ laplacian_eigenvalue engine k :=
    fun k => div_nonneg (Nat.cast_nonneg _) (sq_nonneg _)
  have el_mono : ∀ k1 k2,
      engine.wavenumbers.1 k1 + engine.wavenumbers.2 k1 ≤
        engine.wavenumbers.1 k2 + engine.wavenumbers.2 k2 →
      laplacian_eigenvalue engine k1 ≤ laplacian_eigenvalue engine k2 := by
    intro k1 k2 hs
    have hR2 : (0 : ℚ) ≤ engine.radius ^ 2 := sq_nonneg _
    rcases eq_or_lt_of_le hR2 with h | h
    · show (_ : ℚ) / engine.radius ^ 2 ≤ _ / engine.radius ^ 2
      simp [← h]
    · show (_ : ℚ) / engine.radius ^ 2 ≤ _ / engine.radius ^ 2
      gcongr
  refine ⟨fun k => rfl, ?_, ?_⟩
  · intro k1 k2 hs
    show c * (laplacian_eigenvalue engine k1 /
        laplacian_eigenvalue engine truncation) ^ ord ≤
      c * (laplacian_eigenvalue engine k2 /
        laplacian_eigenvalue engine truncation) ^ ord
    have h0 : (0 : ℚ) ≤ laplacian_eigenvalue engine k1 /
        laplacian_eigenvalue engine truncation :=
      div_nonneg (el_nonneg k1) hel.le
    have h1 : laplacian_eigenvalue engine k1 /
          laplacian_eigenvalue engine truncation ≤
        laplacian_eigenvalue engine k2 /
          laplacian_eigenvalue engine truncation := by
      gcongr
      exact el_mono k1 k2 hs
    exact mul_le_mul_of_nonneg_left (pow_le_pow_left₀ h0 h1 ord) hc
  · intro k hk
    have hkel : laplacian_eigenvalue engine k =
        laplacian_eigenvalue engine truncation := by
      unfold laplacian_eigenvalue
      rw [hk]
    show c * (laplacian_eigenvalue engine k /
        laplacian_eigenvalue engine truncation) ^ ord = c
    rw [hkel, div_self hel.ne', one_pow, mul_one]

theorem damping_monotonicity_witness :
    (∀ k, M4.damping k =
      (1/10000 : ℚ) * (laplacian_eigenvalue (triEngine 3 1) k /
        laplacian_eigenvalue (triEngine 3 1) 3) ^ 4) ∧
    (∀ k1 k2,
      (triEngine 3 1).wavenumbers.1 k1 + (triEngine 3 1).wavenumbers.2 k1 ≤
        (triEngine 3 1).wavenumbers.1 k2 +
          (triEngine 3 1).wavenumbers.2 k2 →
      M4.damping k1 ≤ M4.damping k2) ∧
    (∀ k,
      (triEngine 3 1).wavenumbers.1 k + (triEngine 3 1).wavenumbers.2 k =
        (triEngine 3 1).wavenumbers.1 3 + (triEngine 3 1).wavenumbers.2 3 →
      M4.damping k = 1/10000) :=
  damping_monotonicity (triEngine 3 1) (fun x => x) (fun _ _ => 0)
    4 8 3 10 0 (1/25) (1/10000) 4 (by norm_num)
    (by norm_num [laplacian_eigenvalue, triEngine, trivEngine,
      (by decide : specZonal 3 3 = 0), (by decide : specTotal 3 3 = 3)])

theorem snapshot_times_witness :
    (run_with_snapshots initTriv 100 0 (some 20)).2.1 =
      [20, 40, 60, 80, 100] ∧
    ∀ x ∈ (run_with_snapshots initTriv 100 0 (some 20)).2.1,
      0 < x ∧ ∃ j : ℕ, x = ((j * 2 : ℕ) : ℚ) * 10 :=
  snapshot_times initTriv rfl rfl

end Barotropic
